import Mathlib

/-!
Verification of the frame-loop performance harness (`src/code/src/game.ts`).

The harness records per-frame draw timings tagged with a mouse-activity flag,
computes two-group statistics on demand, and exports a CSV + summary bundle,
guarded against re-entrant export triggers.

Shallow embedding choices:
* JavaScript numbers are modelled by `JNum`: either an exact rational or the
  not-a-number value `nan`.  In this program the only division is
  `sum / count`, and whenever `count = 0` the numerator is the empty fold `0`,
  so the JS result is `0 / 0 = NaN`; `±Infinity` can never arise and is not
  modelled.
* `Math.sqrt` returns irrational values on most inputs, so the statistics
  function is parametrised by a function `jsqrt : JNum → JNum` standing for
  `Math.sqrt`; theorems assume only the facts about `Math.sqrt` they need
  (e.g. `sqrt NaN = NaN`, `sqrt 100 = 10`), and witnesses instantiate it with
  the computable `ratSqrtJ` built from `Rat.sqrt`.
* JavaScript string interpolation of a number (`${row.ms}`) is modelled by a
  parameter `numToString : ℚ → String`; the round-trip theorem assumes it is
  invertible on the samples at hand and produces no comma/newline, which is
  true of the JS float formatting.
* The module-level mutable state of `game.ts` (`performanceData`,
  `isProcessingClick`, `lastTime`, `mouseMovedThisFrame`, plus the in-flight
  zip and the completed downloads) is an explicit state record `GState`;
  event handlers become state transformers, and the asynchronous completion
  of `zip.generateAsync(...).then(...)` is a separate `completePackaging`
  transition.
-/

namespace Harness

/-- A JavaScript number as used by this program: an exact rational or NaN. -/
inductive JNum : Type where
  | num (q : ℚ)
  | nan
  deriving DecidableEq

/-- JS addition: NaN-absorbing. -/
def jadd : JNum → JNum → JNum
  | .num a, .num b => .num (a + b)
  | _, _ => .nan

/-- JS subtraction: NaN-absorbing. -/
def jsub : JNum → JNum → JNum
  | .num a, .num b => .num (a - b)
  | _, _ => .nan

/-- JS division. In this program the divisor is always a group count and the
numerator the sum over that group, so a zero divisor forces a zero numerator:
the JS result is `0 / 0 = NaN`.  `±Infinity` never arises and is not
modelled, so a zero divisor simply yields `nan`. -/
def jdiv : JNum → JNum → JNum
  | .num a, .num b => if b = 0 then .nan else .num (a / b)
  | _, _ => .nan

/-- `Math.pow` with a natural exponent; `Math.pow(x, 0) = 1` even for NaN. -/
def jpow : JNum → ℕ → JNum
  | _, 0 => .num 1
  | .num a, n + 1 => .num (a ^ (n + 1))
  | .nan, _ + 1 => .nan

/-- A computable stand-in for `Math.sqrt`, exact on perfect squares
(used only to instantiate witnesses). -/
def ratSqrtJ : JNum → JNum
  | .num q => if q < 0 then .nan else .num (Rat.sqrt q)
  | .nan => .nan

/-- One entry of `performanceData`: `{ms: number, mouseMoved: boolean}`. -/
structure Sample : Type where
  ms : ℚ
  mouseMoved : Bool
  deriving DecidableEq

/-- One group of the returned statistics record: `{count, mean, stdDev}`. -/
structure GroupStats : Type where
  count : ℕ
  mean : JNum
  stdDev : JNum
  deriving DecidableEq

/-- The record returned by `calculateStatistics`. -/
structure Report : Type where
  mouseMovedStats : GroupStats
  mouseNotMovedStats : GroupStats
  difference : JNum
  deriving DecidableEq

/-- `calculateStatistics` (game.ts lines 54–80): split the samples by the
`mouseMoved` flag, and per group compute count, population mean and population
standard deviation; `difference` is moved mean minus static mean.  `jsqrt`
stands for `Math.sqrt`. -/
def calculateStatistics (jsqrt : JNum → JNum) (data : List Sample) : Report :=
  let mouseMovedTimes := (data.filter (fun d => d.mouseMoved)).map (fun d => d.ms)
  let mouseNotMovedTimes := (data.filter (fun d => !d.mouseMoved)).map (fun d => d.ms)
  let mouseMovedMean :=
    jdiv (.num (mouseMovedTimes.foldl (· + ·) 0)) (.num (mouseMovedTimes.length : ℚ))
  let mouseNotMovedMean :=
    jdiv (.num (mouseNotMovedTimes.foldl (· + ·) 0)) (.num (mouseNotMovedTimes.length : ℚ))
  let mouseMovedStdDev :=
    jsqrt (jdiv (mouseMovedTimes.foldl
        (fun a b => jadd a (jpow (jsub (.num b) mouseMovedMean) 2)) (.num 0))
      (.num (mouseMovedTimes.length : ℚ)))
  let mouseNotMovedStdDev :=
    jsqrt (jdiv (mouseNotMovedTimes.foldl
        (fun a b => jadd a (jpow (jsub (.num b) mouseNotMovedMean) 2)) (.num 0))
      (.num (mouseNotMovedTimes.length : ℚ)))
  { mouseMovedStats :=
      { count := mouseMovedTimes.length
        mean := mouseMovedMean
        stdDev := mouseMovedStdDev }
    mouseNotMovedStats :=
      { count := mouseNotMovedTimes.length
        mean := mouseNotMovedMean
        stdDev := mouseNotMovedStdDev }
    difference := jsub mouseMovedMean mouseNotMovedMean }

/-- The external capabilities a `renderLoop` tick invokes, used to record the
call order of one tick (game.ts lines 143–180). -/
inductive ExtCall : Type where
  | rendererClear
  | stateMachineAdvance (elapsedSec : ℚ)
  | artboardAdvance (elapsedSec : ℚ)
  | rendererSave
  | rendererAlign
  | artboardDraw
  | rendererRestore
  | resolveAnimationFrame
  | requestFrame
  deriving DecidableEq

/-- The simulation-advance calls (`stateMachine.advance`, `artboard.advance`). -/
def isAdvanceCall : ExtCall → Bool
  | .stateMachineAdvance _ => true
  | .artboardAdvance _ => true
  | _ => false

/-- The render-setup calls as the spec words them: clear, save transform,
compute fit/alignment. -/
def isRenderSetupCall : ExtCall → Bool
  | .rendererClear => true
  | .rendererSave => true
  | .rendererAlign => true
  | _ => false

/-- Just the save-transform and fit/alignment calls, without the clear. -/
def isSaveOrAlignCall : ExtCall → Bool
  | .rendererSave => true
  | .rendererAlign => true
  | _ => false

/-- `renderer.clear()`. -/
def isClearCall : ExtCall → Bool
  | .rendererClear => true
  | _ => false

/-- Checks that every call satisfying `p` occurs strictly before every call
satisfying `q`: at each position holding a `q`-call, neither that call nor any
later call may satisfy `p`. -/
def callsPrecedeB (p q : ExtCall → Bool) : List ExtCall → Bool
  | [] => true
  | c :: tr =>
    (!q c || (!p c && tr.all (fun x => !p x))) && callsPrecedeB p q tr

/-- Every call satisfying `p` occurs strictly before every call satisfying `q`
in the trace `tr`. -/
def callsPrecede (p q : ExtCall → Bool) (tr : List ExtCall) : Prop :=
  callsPrecedeB p q tr = true

/-- `(count).toString` padding helper for two decimal digits. -/
def pad2 (n : ℕ) : String :=
  if n < 10 then "0" ++ toString n else toString n

/-- `toFixed(2)` on a finite JS number: round to two decimals (ties away from
zero go up, per the ECMAScript `toFixed` rounding) and print with exactly two
fractional digits. -/
def ratToFixed2 (q : ℚ) : String :=
  let n : ℤ := round (q * 100)
  if n < 0 then
    "-" ++ toString ((-n).toNat / 100) ++ "." ++ pad2 ((-n).toNat % 100)
  else
    toString (n.toNat / 100) ++ "." ++ pad2 (n.toNat % 100)

/-- `x.toFixed(2)` for a JS number; `NaN.toFixed(2)` is the string "NaN". -/
def jToFixed2 : JNum → String
  | .num q => ratToFixed2 q
  | .nan => "NaN"

/-- JavaScript `Array.prototype.join(sep)`. -/
def strJoin (sep : String) : List String → String
  | [] => ""
  | [x] => x
  | x :: y :: xs => x ++ sep ++ strJoin sep (y :: xs)

/-- The CSV built at game.ts lines 109–110: header `DrawTime(ms),MouseMoved`
then one `${row.ms},${row.mouseMoved}` line per sample, joined by newlines.
`numToString` stands for JS number-to-string interpolation of `row.ms`. -/
def csvContentOf (numToString : ℚ → String) (data : List Sample) : String :=
  "DrawTime(ms),MouseMoved\n" ++
    strJoin "\n" (data.map (fun row =>
      numToString row.ms ++ "," ++ (if row.mouseMoved then "true" else "false")))

/-- The `statistics.txt` summary built at game.ts lines 95–106. -/
def statsTextOf (jsqrt : JNum → JNum) (data : List Sample) : String :=
  let stats := calculateStatistics jsqrt data
  "Performance Statistics Summary\n" ++
  "--------------------------------\n" ++
  "Performance impact of mouse movement: " ++ jToFixed2 stats.difference ++ "ms\n" ++
  "\nMouse Moved Frames:\n" ++
  "Count: " ++ toString stats.mouseMovedStats.count ++ "\n" ++
  "Mean: " ++ jToFixed2 stats.mouseMovedStats.mean ++ "ms\n" ++
  "Standard Deviation: ±" ++ jToFixed2 stats.mouseMovedStats.stdDev ++ "\n" ++
  "\nStatic Frames:\n" ++
  "Count: " ++ toString stats.mouseNotMovedStats.count ++ "\n" ++
  "Mean: " ++ jToFixed2 stats.mouseNotMovedStats.mean ++ "ms\n" ++
  "Standard Deviation: ±" ++ jToFixed2 stats.mouseNotMovedStats.stdDev

/-- The zip bundle `performance_data.zip`: `performance_data.csv` plus
`statistics.txt`. -/
structure Artifact : Type where
  csv : String
  statsTxt : String
  deriving DecidableEq

/-- The bundle contents assembled by `onClick` from the buffer it snapshots. -/
def mkArtifact (jsqrt : JNum → JNum) (numToString : ℚ → String)
    (data : List Sample) : Artifact :=
  { csv := csvContentOf numToString data, statsTxt := statsTextOf jsqrt data }

/-- The module-level mutable state of game.ts: `lastTime` (0 = never ticked),
`mouseMovedThisFrame`, `performanceData`, the `isProcessingClick` guard, plus
the in-flight zip (`pending`, between `generateAsync` being scheduled and its
`then` callback running) and the artifacts already downloaded. -/
structure GState : Type where
  lastTime : ℚ
  mouseMovedThisFrame : Bool
  performanceData : List Sample
  isProcessingClick : Bool
  pending : Option Artifact
  downloads : List Artifact
  deriving DecidableEq

/-- The state right after `main()` registered the listeners. -/
def initState : GState :=
  { lastTime := 0, mouseMovedThisFrame := false, performanceData := []
    isProcessingClick := false, pending := none, downloads := [] }

/-- `onMouseMove` (game.ts lines 131–133). -/
def onMouseMove (s : GState) : GState :=
  { s with mouseMovedThisFrame := true }

/-- The elapsed seconds computed at game.ts lines 136–140: `lastTime` is
first initialised to `time` when it is still 0 (JS falsy check). -/
def tickElapsedSec (lastTime time : ℚ) : ℚ :=
  (time - (if lastTime = 0 then time else lastTime)) / 1000

/-- One `renderLoop` tick (game.ts lines 135–183) at timestamp `time`.
`drawTime` is the externally measured `performance.now()` delta around
`artboard.draw` (with `HIGH_PERFORMANCE_MACHINE = false` there is a single
draw call).  Returns the updated state and the ordered trace of external
calls the tick makes. -/
def renderLoop (s : GState) (time drawTime : ℚ) : GState × List ExtCall :=
  let elapsedTimeSec := tickElapsedSec s.lastTime time
  ({ s with
      lastTime := time
      performanceData :=
        s.performanceData ++ [{ ms := drawTime, mouseMoved := s.mouseMovedThisFrame }]
      mouseMovedThisFrame := false },
   [.rendererClear, .stateMachineAdvance elapsedTimeSec, .artboardAdvance elapsedTimeSec,
    .rendererSave, .rendererAlign, .artboardDraw, .rendererRestore,
    .resolveAnimationFrame, .requestFrame])

/-- `onClick` (game.ts lines 84–129): no-op while `isProcessingClick`;
otherwise set the guard, package the current buffer into a pending zip
(`generateAsync` is scheduled here) and clear the buffer immediately —
line 128 runs synchronously at trigger time, before the async `then`. -/
def onClick (jsqrt : JNum → JNum) (numToString : ℚ → String) (s : GState) : GState :=
  if s.isProcessingClick then s
  else
    { s with
        isProcessingClick := true
        pending := some (mkArtifact jsqrt numToString s.performanceData)
        performanceData := [] }

/-- The `zip.generateAsync(...).then(...)` callback (game.ts lines 118–126):
deliver the pending bundle as a download and release the guard. -/
def completePackaging (s : GState) : GState :=
  match s.pending with
  | none => s
  | some a =>
    { s with pending := none, downloads := s.downloads ++ [a], isProcessingClick := false }

/-- Run a sequence of ticks, each given as `(time, drawTime)`. -/
def applyTicks (s : GState) : List (ℚ × ℚ) → GState
  | [] => s
  | td :: ticks => applyTicks (renderLoop s td.1 td.2).1 ticks

/-- The samples a sequence of ticks appends, when the activity flag is
`flag` at the first tick (each tick clears the flag afterwards). -/
def tickSamples (flag : Bool) : List (ℚ × ℚ) → List Sample
  | [] => []
  | td :: ticks => { ms := td.2, mouseMoved := flag } :: tickSamples false ticks

/-- Split a character list at every occurrence of `c` (usual `split`
semantics: `n` separators yield `n + 1` chunks, possibly empty). -/
def splitc (c : Char) : List Char → List (List Char)
  | [] => [[]]
  | x :: xs =>
    if x = c then [] :: splitc c xs
    else
      match splitc c xs with
      | [] => [[x]]
      | h :: t => (x :: h) :: t

/-- Modelled from the spec: the repository generates the table but contains no
parser; the spec's round-trip property needs one.  Parse the boolean cell
(`${row.mouseMoved}` prints `true` or `false`). -/
def parseBool (l : List Char) : Option Bool :=
  if l = "true".data then some true
  else if l = "false".data then some false
  else none

/-- Modelled from the spec: parse one `<float>,<bool>` sample row; `parseNum`
inverts the JS number formatting. -/
def parseRow (parseNum : String → Option ℚ) (l : List Char) : Option Sample :=
  match splitc ',' l with
  | [a, b] =>
    match parseNum (String.mk a), parseBool b with
    | some q, some m => some { ms := q, mouseMoved := m }
    | _, _ => none
  | _ => none

/-- Modelled from the spec: parse the sample rows in order, failing if any
row fails. -/
def parseRows (parseNum : String → Option ℚ) : List (List Char) → Option (List Sample)
  | [] => some []
  | l :: ls =>
    match parseRow parseNum l, parseRows parseNum ls with
    | some s, some rest => some (s :: rest)
    | _, _ => none

/-- Modelled from the spec: parse the tabular artifact back into samples —
split into lines, require the `DrawTime(ms),MouseMoved` header, drop empty
lines (the empty-buffer table is the bare header plus a trailing newline),
and parse each remaining line as a sample row. -/
def parseCSV (parseNum : String → Option ℚ) (s : String) : Option (List Sample) :=
  match splitc '\n' s.data with
  | header :: rest =>
    if header = "DrawTime(ms),MouseMoved".data then
      parseRows parseNum (rest.filter (fun l => !l.isEmpty))
    else none
  | [] => none

/-- The character content of one generated CSV row. -/
def rowChars (numToString : ℚ → String) (s : Sample) : List Char :=
  (numToString s.ms).data ++ ',' :: (if s.mouseMoved then "true".data else "false".data)

lemma jsub_nan_left (x : JNum) : jsub .nan x = .nan := by
  cases x <;> rfl

lemma jsub_nan_right (x : JNum) : jsub x .nan = .nan := by
  cases x <;> rfl

lemma length_filter_add_length_filter_not (p : Sample → Bool) (l : List Sample) :
    (l.filter p).length + (l.filter (fun d => !p d)).length = l.length := by
  induction l with
  | nil => rfl
  | cons a l ih =>
    by_cases h : p a <;> simp [List.filter_cons, h] <;> omega

lemma ratSqrtJ_hundred : ratSqrtJ (.num 100) = .num 10 := by
  simp only [ratSqrtJ]
  rw [if_neg (by norm_num), show (100 : ℚ) = 10 * 10 from by norm_num, Rat.sqrt_eq]
  norm_num

lemma ratSqrtJ_zero : ratSqrtJ (.num 0) = .num 0 := by
  simp only [ratSqrtJ]
  rw [if_neg (by norm_num), show (0 : ℚ) = 0 * 0 from by norm_num, Rat.sqrt_eq]
  norm_num

lemma applyTicks_export_state (ticks : List (ℚ × ℚ)) (s : GState) :
    (applyTicks s ticks).pending = s.pending ∧
    (applyTicks s ticks).isProcessingClick = s.isProcessingClick ∧
    (applyTicks s ticks).downloads = s.downloads := by
  induction ticks generalizing s with
  | nil => exact ⟨rfl, rfl, rfl⟩
  | cons td ticks ih =>
    simpa [applyTicks, renderLoop] using ih (renderLoop s td.1 td.2).1

lemma applyTicks_data (ticks : List (ℚ × ℚ)) (s : GState) :
    (applyTicks s ticks).performanceData
      = s.performanceData ++ tickSamples s.mouseMovedThisFrame ticks := by
  induction ticks generalizing s with
  | nil => simp [applyTicks, tickSamples]
  | cons td ticks ih =>
    have h := ih (renderLoop s td.1 td.2).1
    simp only [applyTicks]
    rw [h]
    simp [renderLoop, tickSamples]

lemma completePackaging_of_pending (s : GState) (a : Artifact) (h : s.pending = some a) :
    completePackaging s
      = { s with
            pending := none
            downloads := s.downloads ++ [a]
            isProcessingClick := false } := by
  unfold completePackaging
  rw [h]

lemma trace_order (e : ℚ) :
    callsPrecede isClearCall isAdvanceCall
      [ExtCall.rendererClear, .stateMachineAdvance e, .artboardAdvance e, .rendererSave,
       .rendererAlign, .artboardDraw, .rendererRestore, .resolveAnimationFrame,
       .requestFrame] ∧
    callsPrecede isAdvanceCall isSaveOrAlignCall
      [ExtCall.rendererClear, .stateMachineAdvance e, .artboardAdvance e, .rendererSave,
       .rendererAlign, .artboardDraw, .rendererRestore, .resolveAnimationFrame,
       .requestFrame] := by
  exact ⟨rfl, rfl⟩

lemma splitc_not_mem (c : Char) (l : List Char) (h : c ∉ l) : splitc c l = [l] := by
  induction l with
  | nil => rfl
  | cons x xs ih =>
    have hx : ¬ x = c := fun hx => h (by simp [hx])
    have hxs : c ∉ xs := fun hm => h (List.mem_cons_of_mem _ hm)
    rw [splitc, if_neg hx, ih hxs]

lemma splitc_append_cons (c : Char) (l1 l2 : List Char) (h : c ∉ l1) :
    splitc c (l1 ++ c :: l2) = l1 :: splitc c l2 := by
  induction l1 with
  | nil => simp [splitc]
  | cons x l1 ih =>
    have hx : ¬ x = c := fun hx => h (by simp [hx])
    have hl1 : c ∉ l1 := fun hm => h (List.mem_cons_of_mem _ hm)
    rw [List.cons_append, splitc, if_neg hx, ih hl1]

lemma splitc_strJoin (rows : List String) (hrows : ∀ r ∈ rows, '\n' ∉ r.data)
    (hne : rows ≠ []) :
    splitc '\n' (strJoin "\n" rows).data = rows.map String.data := by
  induction rows with
  | nil => cases hne rfl
  | cons r rs ih =>
    cases rs with
    | nil =>
      simp only [strJoin, List.map]
      exact splitc_not_mem _ _ (hrows r (by simp))
    | cons y ys =>
      have hdata : (r ++ "\n" ++ strJoin "\n" (y :: ys)).data
          = r.data ++ '\n' :: (strJoin "\n" (y :: ys)).data := by
        rw [String.data_append, String.data_append,
          show ("\n" : String).data = ['\n'] from rfl]
        simp
      simp only [strJoin, List.map] at ih ⊢
      rw [hdata, splitc_append_cons _ _ _ (hrows r (by simp)),
        ih (fun x hx => hrows x (List.mem_cons_of_mem _ hx)) (by simp)]

lemma row_data (numToString : ℚ → String) (s : Sample) :
    (numToString s.ms ++ "," ++ (if s.mouseMoved then "true" else "false")).data
      = rowChars numToString s := by
  unfold rowChars
  cases hm : s.mouseMoved <;>
    simp [hm, String.data_append, show ("," : String).data = [','] from rfl]

lemma rowChars_not_empty (numToString : ℚ → String) (s : Sample) :
    (!(rowChars numToString s).isEmpty) = true := by
  unfold rowChars
  cases (numToString s.ms).data <;> simp

lemma parseRow_rowChars (parseNum : String → Option ℚ) (numToString : ℚ → String)
    (s : Sample) (hinv : parseNum (numToString s.ms) = some s.ms)
    (hcomma : ',' ∉ (numToString s.ms).data) :
    parseRow parseNum (rowChars numToString s) = some s := by
  obtain ⟨ms, mm⟩ := s
  unfold parseRow rowChars
  rw [splitc_append_cons _ _ _ hcomma]
  cases mm <;>
    simp [splitc_not_mem ',' "false".data (by decide),
      splitc_not_mem ',' "true".data (by decide),
      show String.mk (numToString ms).data = numToString ms from rfl, hinv,
      show parseBool "false".data = some false from by decide,
      show parseBool "true".data = some true from by decide]

lemma parseRows_map (parseNum : String → Option ℚ) (numToString : ℚ → String)
    (data : List Sample)
    (hinv : ∀ s ∈ data, parseNum (numToString s.ms) = some s.ms)
    (hcomma : ∀ s ∈ data, ',' ∉ (numToString s.ms).data) :
    parseRows parseNum (data.map (rowChars numToString)) = some data := by
  induction data with
  | nil => rfl
  | cons s ds ih =>
    have h1 : parseRow parseNum (rowChars numToString s) = some s :=
      parseRow_rowChars parseNum numToString s (hinv s (by simp))
        (hcomma s (by simp))
    have h2 := ih (fun x hx => hinv x (List.mem_cons_of_mem _ hx))
      (fun x hx => hcomma x (List.mem_cons_of_mem _ hx))
    simp only [List.map, parseRows, h1, h2]

lemma parseCSV_eq (parseNum : String → Option ℚ) (s : String) (rest : List (List Char))
    (h : splitc '\n' s.data = "DrawTime(ms),MouseMoved".data :: rest) :
    parseCSV parseNum s = parseRows parseNum (rest.filter (fun l => !l.isEmpty)) := by
  unfold parseCSV
  rw [h]
  simp

lemma rowChars_no_newline (numToString : ℚ → String) (s : Sample)
    (hnl : '\n' ∉ (numToString s.ms).data) :
    '\n' ∉ rowChars numToString s := by
  unfold rowChars
  intro hmem
  rcases List.mem_append.mp hmem with h | h
  · exact hnl h
  · cases hm : s.mouseMoved <;> rw [hm] at h <;> revert h <;> decide

/-- C1: on the buffer `[{10, true}, {20, false}, {30, true}]`,
`calculateStatistics` returns moved group `{count 2, mean 20, stdDev 10}`,
static group `{count 1, mean 20, stdDev 0}` and difference `0`, assuming only
that `Math.sqrt` maps `100` to `10` and `0` to `0`. -/
theorem c1_statistics_example (jsqrt : JNum → JNum)
    (h100 : jsqrt (.num 100) = .num 10) (h0 : jsqrt (.num 0) = .num 0) :
    calculateStatistics jsqrt [⟨10, true⟩, ⟨20, false⟩, ⟨30, true⟩] =
      { mouseMovedStats := ⟨2, .num 20, .num 10⟩
        mouseNotMovedStats := ⟨1, .num 20, .num 0⟩
        difference := .num 0 } := by
  simp only [calculateStatistics]
  norm_num [List.filter, List.foldl, jdiv, jadd, jsub, jpow, h100, h0]

theorem c1_statistics_example_witness :
    calculateStatistics ratSqrtJ [⟨10, true⟩, ⟨20, false⟩, ⟨30, true⟩] =
      { mouseMovedStats := ⟨2, .num 20, .num 10⟩
        mouseNotMovedStats := ⟨1, .num 20, .num 0⟩
        difference := .num 0 } :=
  c1_statistics_example ratSqrtJ ratSqrtJ_hundred ratSqrtJ_zero

/-- C2: triggering an export while idle empties the buffer at trigger time and
fixes the bundle contents to the trigger-time samples; ticks running while
packaging is in flight leave the pending bundle untouched, their samples live
only in the buffer, and after completion the next trigger packages exactly
those later samples. -/
theorem c2_buffer_reset_at_trigger (jsqrt : JNum → JNum) (numToString : ℚ → String)
    (s : GState) (hidle : s.isProcessingClick = false) (ticks : List (ℚ × ℚ)) :
    (onClick jsqrt numToString s).performanceData = [] ∧
    (onClick jsqrt numToString s).pending
        = some (mkArtifact jsqrt numToString s.performanceData) ∧
    (applyTicks (onClick jsqrt numToString s) ticks).pending
        = some (mkArtifact jsqrt numToString s.performanceData) ∧
    (applyTicks (onClick jsqrt numToString s) ticks).performanceData
        = tickSamples s.mouseMovedThisFrame ticks ∧
    (onClick jsqrt numToString
        (completePackaging (applyTicks (onClick jsqrt numToString s) ticks))).pending
      = some (mkArtifact jsqrt numToString (tickSamples s.mouseMovedThisFrame ticks)) := by
  have f1 : (onClick jsqrt numToString s).performanceData = [] := by
    simp [onClick, hidle]
  have f2 : (onClick jsqrt numToString s).pending
      = some (mkArtifact jsqrt numToString s.performanceData) := by
    simp [onClick, hidle]
  have fflag : (onClick jsqrt numToString s).mouseMovedThisFrame
      = s.mouseMovedThisFrame := by
    simp [onClick, hidle]
  have f3 := applyTicks_export_state ticks (onClick jsqrt numToString s)
  have f4 := applyTicks_data ticks (onClick jsqrt numToString s)
  rw [f1, fflag] at f4
  simp only [List.nil_append] at f4
  have f5 : (applyTicks (onClick jsqrt numToString s) ticks).pending
      = some (mkArtifact jsqrt numToString s.performanceData) := by
    rw [f3.1, f2]
  have f6 := completePackaging_of_pending _ _ f5
  have f7 : (completePackaging
      (applyTicks (onClick jsqrt numToString s) ticks)).isProcessingClick = false := by
    rw [f6]
  have f8 : (completePackaging
      (applyTicks (onClick jsqrt numToString s) ticks)).performanceData
      = tickSamples s.mouseMovedThisFrame ticks := by
    rw [f6]
    exact f4
  refine ⟨f1, f2, f5, f4, ?_⟩
  rw [onClick, if_neg (by rw [f7]; exact Bool.false_ne_true), f8]

theorem c2_buffer_reset_at_trigger_witness :
    (onClick (fun x => x) (fun _ => "t") initState).performanceData = [] ∧
    (onClick (fun x => x) (fun _ => "t") initState).pending
        = some (mkArtifact (fun x => x) (fun _ => "t") initState.performanceData) ∧
    (applyTicks (onClick (fun x => x) (fun _ => "t") initState) [(5, 2)]).pending
        = some (mkArtifact (fun x => x) (fun _ => "t") initState.performanceData) ∧
    (applyTicks (onClick (fun x => x) (fun _ => "t") initState) [(5, 2)]).performanceData
        = tickSamples initState.mouseMovedThisFrame [(5, 2)] ∧
    (onClick (fun x => x) (fun _ => "t")
        (completePackaging
          (applyTicks (onClick (fun x => x) (fun _ => "t") initState) [(5, 2)]))).pending
      = some (mkArtifact (fun x => x) (fun _ => "t")
          (tickSamples initState.mouseMovedThisFrame [(5, 2)])) :=
  c2_buffer_reset_at_trigger (fun x => x) (fun _ => "t") initState rfl [(5, 2)]

/-- C3: a trigger while the guard is set is a complete no-op (state is
unchanged); a trigger while idle sets the guard, resets the buffer once and
schedules exactly one bundle; a second trigger before packaging completes
changes nothing further; completion delivers that single bundle and only then
releases the guard. -/
theorem c3_busy_guard (jsqrt : JNum → JNum) (numToString : ℚ → String)
    (s sBusy : GState) (hidle : s.isProcessingClick = false)
    (hbusy : sBusy.isProcessingClick = true) :
    onClick jsqrt numToString sBusy = sBusy ∧
    (onClick jsqrt numToString s).isProcessingClick = true ∧
    onClick jsqrt numToString (onClick jsqrt numToString s) = onClick jsqrt numToString s ∧
    (onClick jsqrt numToString s).performanceData = [] ∧
    (onClick jsqrt numToString s).pending
        = some (mkArtifact jsqrt numToString s.performanceData) ∧
    (completePackaging (onClick jsqrt numToString s)).isProcessingClick = false ∧
    (completePackaging (onClick jsqrt numToString s)).downloads
        = s.downloads ++ [mkArtifact jsqrt numToString s.performanceData] ∧
    (completePackaging (onClick jsqrt numToString s)).pending = none := by
  refine ⟨?_, ?_, ?_, ?_, ?_, ?_, ?_, ?_⟩ <;>
    simp [onClick, completePackaging, hidle, hbusy]

theorem c3_busy_guard_witness :
    onClick (fun x => x) (fun _ => "t") { initState with isProcessingClick := true }
        = { initState with isProcessingClick := true } ∧
    (onClick (fun x => x) (fun _ => "t") initState).isProcessingClick = true ∧
    onClick (fun x => x) (fun _ => "t") (onClick (fun x => x) (fun _ => "t") initState)
        = onClick (fun x => x) (fun _ => "t") initState ∧
    (onClick (fun x => x) (fun _ => "t") initState).performanceData = [] ∧
    (onClick (fun x => x) (fun _ => "t") initState).pending
        = some (mkArtifact (fun x => x) (fun _ => "t") initState.performanceData) ∧
    (completePackaging (onClick (fun x => x) (fun _ => "t") initState)).isProcessingClick
        = false ∧
    (completePackaging (onClick (fun x => x) (fun _ => "t") initState)).downloads
        = initState.downloads
            ++ [mkArtifact (fun x => x) (fun _ => "t") initState.performanceData] ∧
    (completePackaging (onClick (fun x => x) (fun _ => "t") initState)).pending = none :=
  c3_busy_guard (fun x => x) (fun _ => "t") initState
    { initState with isProcessingClick := true } rfl rfl

/-- C4: whenever a group is empty, that group's mean and stdDev are NaN
(the code divides by the zero count without a guard, and `0 / 0 = NaN`),
and the difference is NaN as soon as either group is empty.  The empty-buffer
scenario is the witness below. -/
theorem c4_empty_group_nan (jsqrt : JNum → JNum) (hnan : jsqrt .nan = .nan)
    (data : List Sample) :
    ((calculateStatistics jsqrt data).mouseMovedStats.count = 0 →
      (calculateStatistics jsqrt data).mouseMovedStats.mean = .nan ∧
      (calculateStatistics jsqrt data).mouseMovedStats.stdDev = .nan ∧
      (calculateStatistics jsqrt data).difference = .nan) ∧
    ((calculateStatistics jsqrt data).mouseNotMovedStats.count = 0 →
      (calculateStatistics jsqrt data).mouseNotMovedStats.mean = .nan ∧
      (calculateStatistics jsqrt data).mouseNotMovedStats.stdDev = .nan ∧
      (calculateStatistics jsqrt data).difference = .nan) := by
  simp only [calculateStatistics]
  constructor
  · intro h
    rw [List.length_eq_zero.mp h]
    simp [jdiv, hnan, jsub_nan_left]
  · intro h
    rw [List.length_eq_zero.mp h]
    simp [jdiv, hnan, jsub_nan_right]

theorem c4_empty_group_nan_witness :
    (calculateStatistics ratSqrtJ []).mouseMovedStats.count = 0 ∧
    (calculateStatistics ratSqrtJ []).mouseNotMovedStats.count = 0 ∧
    (calculateStatistics ratSqrtJ []).mouseMovedStats.mean = .nan ∧
    (calculateStatistics ratSqrtJ []).mouseMovedStats.stdDev = .nan ∧
    (calculateStatistics ratSqrtJ []).mouseNotMovedStats.mean = .nan ∧
    (calculateStatistics ratSqrtJ []).mouseNotMovedStats.stdDev = .nan ∧
    (calculateStatistics ratSqrtJ []).difference = .nan := by
  have h := c4_empty_group_nan ratSqrtJ (by decide) []
  exact ⟨by decide, by decide, (h.1 (by decide)).1, (h.1 (by decide)).2.1,
    (h.2 (by decide)).1, (h.2 (by decide)).2.1, (h.1 (by decide)).2.2⟩

/-- C5: the two groups of the partition always account for every sample:
moved count plus static count equals the length of the input list. -/
theorem c5_partition_count (jsqrt : JNum → JNum) (data : List Sample) :
    (calculateStatistics jsqrt data).mouseMovedStats.count
      + (calculateStatistics jsqrt data).mouseNotMovedStats.count = data.length := by
  simp only [calculateStatistics, List.length_map]
  exact length_filter_add_length_filter_not _ data

/-- C6: the generated table is the `DrawTime(ms),MouseMoved` header followed
by one `<number>,<bool>` line per sample in order, and parsing it back yields
exactly the original samples, provided the number formatting is invertible on
the samples at hand and prints no comma or newline (as JS float printing
does). -/
theorem c6_csv_round_trip (numToString : ℚ → String) (parseNum : String → Option ℚ)
    (data : List Sample)
    (hinv : ∀ s ∈ data, parseNum (numToString s.ms) = some s.ms)
    (hcomma : ∀ s ∈ data, ',' ∉ (numToString s.ms).data)
    (hnl : ∀ s ∈ data, '\n' ∉ (numToString s.ms).data) :
    parseCSV parseNum (csvContentOf numToString data) = some data := by
  have hsplit : splitc '\n' (csvContentOf numToString data).data
      = "DrawTime(ms),MouseMoved".data
        :: splitc '\n' (strJoin "\n" (data.map (fun row =>
          numToString row.ms ++ "," ++ (if row.mouseMoved then "true" else "false")))).data := by
    unfold csvContentOf
    rw [String.data_append,
      show ("DrawTime(ms),MouseMoved\n" : String).data
        = "DrawTime(ms),MouseMoved".data ++ ['\n'] from rfl,
      List.append_assoc, List.singleton_append]
    exact splitc_append_cons _ _ _ (by decide)
  rw [parseCSV_eq parseNum _ _ hsplit]
  cases data with
  | nil =>
    rfl
  | cons d ds =>
    have hmapne : (d :: ds).map (fun row =>
        numToString row.ms ++ "," ++ (if row.mouseMoved then "true" else "false")) ≠ [] := by
      simp
    have hjoin := splitc_strJoin ((d :: ds).map (fun row =>
        numToString row.ms ++ "," ++ (if row.mouseMoved then "true" else "false")))
      (by
        intro r hr
        rcases List.mem_map.mp hr with ⟨s, hs, hsr⟩
        rw [← hsr, row_data]
        exact rowChars_no_newline numToString s (hnl s hs))
      hmapne
    rw [hjoin, List.map_map]
    have hcomp : (String.data ∘ fun row =>
        numToString row.ms ++ "," ++ (if row.mouseMoved then "true" else "false"))
        = rowChars numToString := funext (fun s => row_data numToString s)
    rw [hcomp]
    have hfilter : ((d :: ds).map (rowChars numToString)).filter (fun l => !l.isEmpty)
        = (d :: ds).map (rowChars numToString) := by
      rw [List.filter_eq_self]
      intro a ha
      rcases List.mem_map.mp ha with ⟨s, _, hsr⟩
      rw [← hsr]
      exact rowChars_not_empty numToString s
    rw [hfilter]
    exact parseRows_map parseNum numToString (d :: ds) hinv hcomma

theorem c6_csv_round_trip_witness :
    (∀ s ∈ ([{ ms := 10, mouseMoved := true }, { ms := 20, mouseMoved := false }] :
        List Sample),
      (fun t => if t = "10" then some (10 : ℚ) else if t = "20" then some 20 else none)
          ((fun q => if q = (10 : ℚ) then "10" else "20") s.ms) = some s.ms) ∧
    parseCSV (fun t => if t = "10" then some (10 : ℚ) else if t = "20" then some 20 else none)
        (csvContentOf (fun q => if q = (10 : ℚ) then "10" else "20")
          [{ ms := 10, mouseMoved := true }, { ms := 20, mouseMoved := false }])
      = some [{ ms := 10, mouseMoved := true }, { ms := 20, mouseMoved := false }] :=
  ⟨by decide,
   c6_csv_round_trip (fun q => if q = (10 : ℚ) then "10" else "20")
     (fun t => if t = "10" then some (10 : ℚ) else if t = "20" then some 20 else none)
     [{ ms := 10, mouseMoved := true }, { ms := 20, mouseMoved := false }]
     (by decide) (by decide) (by decide)⟩

/-- C7: a tick always stores its own timestamp as the new `lastTime`; the
elapsed time is zero while `lastTime` is still unset (game.ts keeps it at the
falsy `0` until the first tick), and `(t - lastTime) / 1000` seconds
otherwise. -/
theorem c7_tick_elapsed (s : GState) (t d : ℚ) :
    (renderLoop s t d).1.lastTime = t ∧
    (s.lastTime = 0 → tickElapsedSec s.lastTime t = 0) ∧
    (s.lastTime ≠ 0 → tickElapsedSec s.lastTime t = (t - s.lastTime) / 1000) := by
  refine ⟨rfl, ?_, ?_⟩ <;> intro h <;> simp [tickElapsedSec, h]

theorem c7_tick_elapsed_witness :
    (renderLoop initState 7 3).1.lastTime = 7 ∧
    tickElapsedSec 0 7 = 0 ∧
    tickElapsedSec 5 7 = (7 - 5) / 1000 :=
  ⟨(c7_tick_elapsed initState 7 3).1,
   (c7_tick_elapsed initState 7 3).2.1 rfl,
   (c7_tick_elapsed { initState with lastTime := 5 } 7 3).2.2 (by decide)⟩

/-- C8: every tick appends exactly one sample, tagged with the value the
activity flag held during the tick, and leaves the flag cleared. -/
theorem c8_tick_appends_and_clears_flag (s : GState) (t d : ℚ) :
    (renderLoop s t d).1.performanceData
        = s.performanceData ++ [{ ms := d, mouseMoved := s.mouseMovedThisFrame }] ∧
    (renderLoop s t d).1.mouseMovedThisFrame = false :=
  ⟨rfl, rfl⟩

/-- C9 counterexample: in the tick trace `renderer.clear()` is the very first
call, before `stateMachine.advance`/`artboard.advance`, so the
simulation-advance calls do not all precede the render-setup calls
(clear, save, align) as the claim states. -/
theorem c9_advance_before_setup_counterexample :
    ¬ callsPrecede isAdvanceCall isRenderSetupCall (renderLoop initState 7 3).2 := by
  intro h
  exact Bool.false_ne_true h

/-- C9 amended: in every tick the clear call precedes the simulation-advance
calls, and the simulation-advance calls precede the save-transform and
fit/alignment calls. -/
theorem c9_clear_advance_save_align_order (s : GState) (t d : ℚ) :
    callsPrecede isClearCall isAdvanceCall (renderLoop s t d).2 ∧
    callsPrecede isAdvanceCall isSaveOrAlignCall (renderLoop s t d).2 :=
  trace_order (tickElapsedSec s.lastTime t)

/-- C10 counterexample: exporting with an empty buffer produces a CSV that is
the header line followed by a trailing newline (the code appends `"\n"` to the
header before joining zero rows), not the bare header line the claim states. -/
theorem c10_empty_export_counterexample :
    ((onClick (fun x => x) (fun _ => "t") initState).pending.map Artifact.csv)
        = some "DrawTime(ms),MouseMoved\n" ∧
    ("DrawTime(ms),MouseMoved\n" : String) ≠ "DrawTime(ms),MouseMoved" := by
  constructor
  · decide
  · decide

/-- C10 amended: an export triggered while idle on an empty buffer still runs
to completion: the bundle's CSV is exactly the header line followed by a
trailing newline and no sample rows, the buffer stays empty, and completion
delivers the bundle and releases the guard. -/
theorem c10_empty_export (jsqrt : JNum → JNum) (numToString : ℚ → String)
    (s : GState) (hidle : s.isProcessingClick = false)
    (hempty : s.performanceData = []) :
    (onClick jsqrt numToString s).pending
        = some { csv := "DrawTime(ms),MouseMoved\n", statsTxt := statsTextOf jsqrt [] } ∧
    (onClick jsqrt numToString s).performanceData = [] ∧
    (completePackaging (onClick jsqrt numToString s)).downloads
        = s.downloads
            ++ [{ csv := "DrawTime(ms),MouseMoved\n", statsTxt := statsTextOf jsqrt [] }] ∧
    (completePackaging (onClick jsqrt numToString s)).isProcessingClick = false := by
  have hcsv : csvContentOf numToString [] = "DrawTime(ms),MouseMoved\n" := by
    show "DrawTime(ms),MouseMoved\n" ++ strJoin "\n" [] = "DrawTime(ms),MouseMoved\n"
    decide
  have hart : mkArtifact jsqrt numToString s.performanceData
      = { csv := "DrawTime(ms),MouseMoved\n", statsTxt := statsTextOf jsqrt [] } := by
    rw [mkArtifact, hempty, hcsv]
  refine ⟨?_, ?_, ?_, ?_⟩ <;> simp [onClick, completePackaging, hidle, hart]

theorem c10_empty_export_witness :
    (onClick (fun x => x) (fun _ => "t") initState).pending
        = some { csv := "DrawTime(ms),MouseMoved\n"
                 statsTxt := statsTextOf (fun x => x) [] } ∧
    (onClick (fun x => x) (fun _ => "t") initState).performanceData = [] ∧
    (completePackaging (onClick (fun x => x) (fun _ => "t") initState)).downloads
        = initState.downloads
            ++ [{ csv := "DrawTime(ms),MouseMoved\n"
                  statsTxt := statsTextOf (fun x => x) [] }] ∧
    (completePackaging (onClick (fun x => x) (fun _ => "t") initState)).isProcessingClick
        = false :=
  c10_empty_export (fun x => x) (fun _ => "t") initState rfl rfl

end Harness
